import Mathlib

/-!
Verification of the `sunk` Subsonic client library's entity layer
(`src/artist.rs`, `src/song.rs`) against its specification.

The JSON wire values, the error taxonomy and the per-entity two-stage
deserializers are embedded shallowly below.  Components of the repository
that are not under `src/` (the `Query` builder, the `Sunk` transport
client, the `map_str` helper, the `Album` entity and the `error` module)
are modelled from the spec, as marked in their doc comments.
-/

/-- A JSON value, as decoded by `serde_json`: the wire data that the
entity deserializers in `artist.rs` and `song.rs` consume.  Numbers are
restricted to naturals, which covers every numeric field of the schema
(`albumCount`, `size`, `duration`, `bitRate`, `playCount`, ...). -/
inductive Json where
  | null : Json
  | bool (b : Bool) : Json
  | num (n : Nat) : Json
  | str (s : String) : Json
  | arr (elems : List Json) : Json
  | obj (fields : List (String × Json)) : Json
deriving Repr

/-- First-match lookup of a key in a JSON object's field list. -/
def lookupField : List (String × Json) → String → Option Json
  | [], _ => none
  | (k', v) :: rest, k => if k' = k then some v else lookupField rest k

/-- `serde_json::Value::get(key)`: `Some` field value on an object that
has the key, `None` on a missing key or a non-object. -/
def Json.get? (j : Json) (k : String) : Option Json :=
  match j with
  | .obj fs => lookupField fs k
  | _ => none

/-- Accumulator loop for `parseU64`: consumes decimal digits, fails on
any non-digit character. -/
def parseU64Core : List Char → Nat → Option Nat
  | [], acc => some acc
  | c :: cs, acc =>
      if c.isDigit then parseU64Core cs (acc * 10 + (c.toNat - 48))
      else none

/-- Rust's `str::parse::<u64>()`: an optional leading `'+'`, then at
least one decimal digit, and the value must fit in 64 bits; anything
else is a parse failure (`None`). -/
def parseU64 (s : String) : Option Nat :=
  let cs := match s.data with
    | '+' :: rest => rest
    | l => l
  match cs with
  | [] => none
  | _ =>
    match parseU64Core cs 0 with
    | some n => if n < 2 ^ 64 then some n else none
    | none => none

/-- Modelled from the spec: the `error` module is not under `src/`.
§7 names the error taxonomy: `NetworkError`, `DecodeError`,
`MalformedEnvelopeError`, `ServerError{code, message}`, `InvalidIdError`,
`InvalidFieldError`, `UrlConstructionError`.  The last two constructors
stand for the serde derive's own errors (`missing field ...` /
`invalid type ...`) raised during the raw-wire-shape stage. -/
inductive Err where
  | networkError : Err
  | decodeError : Err
  | malformedEnvelopeError : Err
  | serverError (code : Nat) (message : String) : Err
  | invalidIdError : Err
  | invalidFieldError : Err
  | urlConstructionError : Err
  | missingField (name : String) : Err
  | typeMismatch (name : String) : Err
deriving Repr, DecidableEq

/-- Outcome of running a Rust expression that returns a `Result` but may
also `panic!` (via `.unwrap()`): either a value, a typed error, or a
panic (abort). -/
inductive Outcome (α : Type) where
  | ok (a : α) : Outcome α
  | err (e : Err) : Outcome α
  | panicked : Outcome α
deriving Repr, DecidableEq

/-- serde derive semantics for a required `String` field: the key must
be present and hold a JSON string. -/
def reqStr (j : Json) (k : String) : Except Err String :=
  match j.get? k with
  | some (.str s) => .ok s
  | some _ => .error (.typeMismatch k)
  | none => .error (.missingField k)

/-- serde derive semantics for a required `u64` field: the key must be
present and hold a number fitting in 64 bits. -/
def reqNat (j : Json) (k : String) : Except Err Nat :=
  match j.get? k with
  | some (.num n) => if n < 2 ^ 64 then .ok n else .error (.typeMismatch k)
  | some _ => .error (.typeMismatch k)
  | none => .error (.missingField k)

/-- serde derive semantics for a required `bool` field. -/
def reqBool (j : Json) (k : String) : Except Err Bool :=
  match j.get? k with
  | some (.bool b) => .ok b
  | some _ => .error (.typeMismatch k)
  | none => .error (.missingField k)

/-- serde derive semantics for an `Option<String>` field: an absent key
or a JSON `null` is `None`; a string is `Some`. -/
def optStr (j : Json) (k : String) : Except Err (Option String) :=
  match j.get? k with
  | none => .ok none
  | some .null => .ok none
  | some (.str s) => .ok (some s)
  | some _ => .error (.typeMismatch k)

/-- serde derive semantics for an `Option<u64>` field. -/
def optNat (j : Json) (k : String) : Except Err (Option Nat) :=
  match j.get? k with
  | none => .ok none
  | some .null => .ok none
  | some (.num n) => if n < 2 ^ 64 then .ok (some n) else .error (.typeMismatch k)
  | some _ => .error (.typeMismatch k)

/-- serde derive semantics for an `Option<bool>` field. -/
def optBool (j : Json) (k : String) : Except Err (Option Bool) :=
  match j.get? k with
  | none => .ok none
  | some .null => .ok none
  | some (.bool b) => .ok (some b)
  | some _ => .error (.typeMismatch k)

/-- serde derive semantics for a `#[serde(default)] Vec<_>` field: an
absent key yields the explicit default `[]`; a present key must hold a
JSON array, whose raw elements are returned. -/
def defaultArr (j : Json) (k : String) : Except Err (List Json) :=
  match j.get? k with
  | none => .ok []
  | some (.arr xs) => .ok xs
  | some _ => .error (.typeMismatch k)

/-- Modelled from the spec: `album.rs` is not under `src/`.  Per §3 an
Album is an entity with a string-encoded numeric wire id, and the §8
payload carries `name` and `songCount`; only the fields the claims
exercise are modelled. -/
structure Album where
  id : Nat
  name : String
  song_count : Nat
deriving Repr, DecidableEq

/-- Modelled from the spec: `Album`'s two-stage deserializer (in the
missing `album.rs`), following the §4.4 discipline: the string `id` is
parsed into an unsigned integer and a non-numeric value is a
deserialization failure (`InvalidIdError`). -/
def deserializeAlbum (j : Json) : Except Err Album := do
  let idStr ← reqStr j "id"
  let name ← reqStr j "name"
  let cnt ← reqNat j "songCount"
  match parseU64 idStr with
  | some n => return { id := n, name := name, song_count := cnt }
  | none => throw .invalidIdError

/-- `Artist` (artist.rs lines 11-18). -/
structure Artist where
  id : Nat
  name : String
  cover_id : Option String
  albums : List Album
  album_count : Nat
deriving Repr, DecidableEq

/-- The raw wire shape `_Artist` from `impl Deserialize for Artist`
(artist.rs lines 94-103): camelCase keys, string-typed `id`, optional
`coverArt`, and `#[serde(default)]` on `album`. -/
structure RawArtist where
  id : String
  name : String
  cover_art : Option String
  album_count : Nat
  album : List Album
deriving Repr, DecidableEq

/-- Stage one of `Artist` deserialization: `_Artist::deserialize(de)`
(artist.rs line 105).  The nested `album` array is deserialized
recursively by the `Album` deserializer `dA` (supplied by the missing
`album.rs`). -/
def deserializeRawArtist (dA : Json → Except Err Album) (j : Json) :
    Except Err RawArtist := do
  let id ← reqStr j "id"
  let name ← reqStr j "name"
  let cover_art ← optStr j "coverArt"
  let album_count ← reqNat j "albumCount"
  let albumJs ← defaultArr j "album"
  let album ← albumJs.mapM dA
  return { id := id, name := name, cover_art := cover_art,
           album_count := album_count, album := album }

/-- Stage two of `Artist` deserialization (artist.rs lines 107-113):
`raw.id.parse().unwrap()` panics when the wire id is non-numeric. -/
def artistFromRaw (raw : RawArtist) : Outcome Artist :=
  match parseU64 raw.id with
  | some n =>
      .ok { id := n, name := raw.name, cover_id := raw.cover_art,
            albums := raw.album, album_count := raw.album_count }
  | none => .panicked

/-- `impl Deserialize for Artist` (artist.rs lines 89-115): the
two-stage deserialization of an `Artist` wire payload. -/
def deserializeArtist (dA : Json → Except Err Album) (j : Json) :
    Outcome Artist :=
  match deserializeRawArtist dA j with
  | .ok raw => artistFromRaw raw
  | .error e => .err e

/-- `Song` (song.rs lines 40-57). -/
structure Song where
  id : Nat
  title : String
  album : Option String
  album_id : Option Nat
  artist : Option String
  artist_id : Option Nat
  track : Option Nat
  year : Option Nat
  genre : Option String
  cover_id : Option Nat
  size : Nat
  duration : Nat
  path : String
  media_type : String
deriving Repr, DecidableEq

/-- The raw wire shape `_Song` from `impl Deserialize for Song`
(song.rs lines 118-145): camelCase keys, string-typed ids, and the
`type` key renamed to `media_type`. -/
structure RawSong where
  id : String
  parent : String
  is_dir : Bool
  title : String
  album : Option String
  artist : Option String
  track : Option Nat
  year : Option Nat
  genre : Option String
  cover_art : Option String
  size : Nat
  content_type : String
  suffix : String
  duration : Nat
  bit_rate : Nat
  path : String
  is_video : Option Bool
  play_count : Nat
  disc_number : Option Nat
  created : String
  album_id : Option String
  artist_id : Option String
  media_type : String
deriving Repr, DecidableEq

/-- Stage one of `Song` deserialization: `_Song::deserialize(de)`
(song.rs line 147). -/
def deserializeRawSong (j : Json) : Except Err RawSong := do
  let id ← reqStr j "id"
  let parent ← reqStr j "parent"
  let is_dir ← reqBool j "isDir"
  let title ← reqStr j "title"
  let album ← optStr j "album"
  let artist ← optStr j "artist"
  let track ← optNat j "track"
  let year ← optNat j "year"
  let genre ← optStr j "genre"
  let cover_art ← optStr j "coverArt"
  let size ← reqNat j "size"
  let content_type ← reqStr j "contentType"
  let suffix ← reqStr j "suffix"
  let duration ← reqNat j "duration"
  let bit_rate ← reqNat j "bitRate"
  let path ← reqStr j "path"
  let is_video ← optBool j "isVideo"
  let play_count ← reqNat j "playCount"
  let disc_number ← optNat j "discNumber"
  let created ← reqStr j "created"
  let album_id ← optStr j "albumId"
  let artist_id ← optStr j "artistId"
  let media_type ← reqStr j "type"
  return { id := id, parent := parent, is_dir := is_dir, title := title,
           album := album, artist := artist, track := track, year := year,
           genre := genre, cover_art := cover_art, size := size,
           content_type := content_type, suffix := suffix,
           duration := duration, bit_rate := bit_rate, path := path,
           is_video := is_video, play_count := play_count,
           disc_number := disc_number, created := created,
           album_id := album_id, artist_id := artist_id,
           media_type := media_type }

/-- `opt.map(|i| i.parse().unwrap())` (song.rs lines 153-156): `None`
passes through, a numeric string parses, a non-numeric string panics
(modelled as the `none` of the outer option). -/
def parseOptId : Option String → Option (Option Nat)
  | none => some none
  | some s => (parseU64 s).map some

/-- Stage two of `Song` deserialization (song.rs lines 149-164): each
string-encoded id is parsed with `.parse().unwrap()`, which panics on a
non-numeric value. -/
def songFromRaw (raw : RawSong) : Outcome Song :=
  match parseU64 raw.id, parseOptId raw.album_id, parseOptId raw.artist_id,
        parseOptId raw.cover_art with
  | some n, some aid, some rid, some cid =>
      .ok { id := n, title := raw.title, album := raw.album,
            album_id := aid, artist := raw.artist, artist_id := rid,
            track := raw.track, year := raw.year, genre := raw.genre,
            cover_id := cid, size := raw.size, duration := raw.duration,
            path := raw.path, media_type := raw.media_type }
  | _, _, _, _ => .panicked

/-- `impl Deserialize for Song` (song.rs lines 113-166): the two-stage
deserialization of a `Song` wire payload. -/
def deserializeSong (j : Json) : Outcome Song :=
  match deserializeRawSong j with
  | .ok raw => songFromRaw raw
  | .error e => .err e

/-- Whether an outcome is a typed error (as opposed to a success or a
panic). -/
def Outcome.isErr {α : Type} : Outcome α → Bool
  | .err _ => true
  | _ => false

/-- The example payload of the `parse_song` test (song.rs lines
258-283), minus the float-valued `averageRating` key (ignored by serde:
no `_Song` field corresponds to it) and the likewise ignored `starred`
key. -/
def rawSongJson : Json :=
  Json.obj [("id", .str "27"), ("parent", .str "25"),
            ("isDir", .bool false), ("title", .str "Bellevue Avenue"),
            ("album", .str "Bellevue"), ("artist", .str "Misteur Valaire"),
            ("track", .num 1), ("genre", .str "(255)"),
            ("coverArt", .str "25"), ("size", .num 5400185),
            ("contentType", .str "audio/mpeg"), ("suffix", .str "mp3"),
            ("duration", .num 198), ("bitRate", .num 216),
            ("path", .str "Misteur Valaire/Bellevue/01.mp3"),
            ("playCount", .num 706),
            ("created", .str "2017-03-12T11:07:27.000Z"),
            ("albumId", .str "1"), ("artistId", .str "1"),
            ("type", .str "music")]

/-- `AudioFormat` (song.rs lines 13-32): the closed enumeration of
Subsonic's default transcoding formats. -/
inductive AudioFormat where
  | Aac | Aif | Aiff | Ape | Flac | Flv | M4a | Mp3 | Mpc | Oga | Ogg
  | Ogx | Opus | Shn | Wav | Wma | Raw
deriving Repr, DecidableEq

/-- The string produced by `format!("{:?}", self)` for `AudioFormat`:
Rust's `derive(Debug)` prints the variant's name verbatim. -/
def AudioFormat.debugName : AudioFormat → String
  | .Aac => "Aac"
  | .Aif => "Aif"
  | .Aiff => "Aiff"
  | .Ape => "Ape"
  | .Flac => "Flac"
  | .Flv => "Flv"
  | .M4a => "M4a"
  | .Mp3 => "Mp3"
  | .Mpc => "Mpc"
  | .Oga => "Oga"
  | .Ogg => "Ogg"
  | .Ogx => "Ogx"
  | .Opus => "Opus"
  | .Shn => "Shn"
  | .Wav => "Wav"
  | .Wma => "Wma"
  | .Raw => "Raw"

/-- Rust's `char::to_lowercase` restricted to the ASCII range, which is
all `derive(Debug)` ever emits for these variant names. -/
def charToLower (c : Char) : Char :=
  if 'A' ≤ c ∧ c ≤ 'Z' then Char.ofNat (c.toNat + 32) else c

/-- Rust's `str::to_lowercase` on ASCII strings. -/
def strToLower (s : String) : String := ⟨s.data.map charToLower⟩

/-- `impl Display for AudioFormat` (song.rs lines 34-38):
`format!("{:?}", self).to_lowercase()`. -/
def AudioFormat.display (f : AudioFormat) : String :=
  strToLower f.debugName

instance : ToString AudioFormat := ⟨AudioFormat.display⟩

/-- Modelled from the spec: `query.rs` is not under `src/`.  §3 and
§4.1: a `Query` is an ordered sequence of key/value string pairs,
accumulated additively. -/
structure Query where
  pairs : List (String × String)
deriving Repr, DecidableEq

/-- Modelled from the spec (§4.1): `new()` creates an empty builder. -/
def Query.new : Query := ⟨[]⟩

/-- Modelled from the spec (§4.1): `with(key, value)` creates a builder
pre-seeded with one pair.  (`with` is reserved in Lean, hence the
underscore.) -/
def Query.with_ (k v : String) : Query := ⟨[(k, v)]⟩

/-- Modelled from the spec (§4.1): `arg(key, value)` appends a
mandatory pair; the value is passed here already converted by the
uniform string-conversion rule. -/
def Query.arg (q : Query) (k v : String) : Query := ⟨q.pairs ++ [(k, v)]⟩

/-- Modelled from the spec (§4.1): `maybe_arg(key, Option<value>)`
appends the pair only if the option is present; appends nothing
otherwise. -/
def Query.maybe_arg (q : Query) (k : String) (v : Option String) : Query :=
  match v with
  | some s => q.arg k s
  | none => q

/-- Modelled from the spec (§4.1): `build()` finalizes to an ordered
sequence of pairs ready for URL encoding. -/
def Query.build (q : Query) : List (String × String) := q.pairs

/-- Modelled from the spec: `util.rs` is not under `src/`.  `map_str`
applies the uniform string-conversion rule (§4.1: integers as decimal,
enums as their display name) under an `Option`. -/
def map_str {α : Type} [ToString α] (x : Option α) : Option String :=
  x.map toString

/-- Modelled from the spec: `sunk.rs` (the Transport Client, §4.2) is
not under `src/`.  One `get` call is modelled as a response oracle:
`respond op args` is the decoded inner payload of the envelope, or a
transport/protocol error. -/
structure Sunk where
  respond : String → List (String × String) → Except Err Json

/-- Modelled from the spec (§4.2): `get(operation_name, query)` decodes
the envelope and returns the inner payload value or a typed error. -/
def Sunk.get (s : Sunk) (op : String) (q : Query) : Except Err Json :=
  s.respond op q.build

/-- `Song::stream_url` (song.rs lines 64-76): builds the query for the
`"stream"` operation.  URL assembly itself lives in the missing
`sunk.rs` (`build_url`), so the result is modelled as the
(operation, built query) pair handed to `build_url`. -/
def Song.stream_url (song : Song) (bitrate : Option Nat)
    (format : Option AudioFormat) : String × List (String × String) :=
  ("stream",
   (((Query.new.arg "id" (toString song.id)).maybe_arg "maxBitRate"
        (map_str bitrate)).maybe_arg "format" (map_str format)).build)

/-- `get_artist` (artist.rs lines 117-120): one `sunk.get("getArtist",
Query::with("id", id))` call followed by `Artist` deserialization.  The
second component counts the Transport Client calls performed. -/
def get_artist (dA : Json → Except Err Album) (s : Sunk) (id : Nat) :
    Outcome Artist × Nat :=
  match s.get "getArtist" (Query.with_ "id" (toString id)) with
  | .ok j => (deserializeArtist dA j, 1)
  | .error e => (.err e, 1)

/-- `Artist::albums` (artist.rs lines 48-54): return the embedded list
when its length equals `album_count`, otherwise re-fetch the artist and
return the fetched list.  The second component counts the Transport
Client calls performed. -/
def Artist.albumsVia (a : Artist) (dA : Json → Except Err Album)
    (s : Sunk) : Outcome (List Album) × Nat :=
  if a.albums.length ≠ a.album_count then
    match get_artist dA s a.id with
    | (.ok art, n) => (.ok art.albums, n)
    | (.err e, n) => (.err e, n)
    | (.panicked, n) => (.panicked, n)
  else
    (.ok a.albums, 0)

/-- `get_random_songs` (song.rs lines 173-191), query-building part:
`size` falls back to 10 via `unwrap_or`, the four remaining parameters
are optional. -/
def get_random_songs_args (size : Option Nat) (genre : Option String)
    (from_year : Option Nat) (to_year : Option Nat)
    (folder_id : Option Nat) : List (String × String) :=
  (((((Query.new.arg "size" (toString (size.getD 10))).maybe_arg "genre"
        (map_str genre)).maybe_arg "fromYear"
        (map_str from_year)).maybe_arg "toYear"
        (map_str to_year)).maybe_arg "musicFolderId"
        (map_str folder_id)).build

/-- `Lyrics` (song.rs lines 228-233). -/
structure Lyrics where
  title : String
  artist : String
  value : String
deriving Repr, DecidableEq

/-- `derive(Deserialize)` for `Lyrics`: three required string fields. -/
def deserializeLyrics (j : Json) : Except Err Lyrics := do
  let title ← reqStr j "title"
  let artist ← reqStr j "artist"
  let value ← reqStr j "value"
  return { title := title, artist := artist, value := value }

/-- `get_lyrics` (song.rs lines 211-226): build the optional
artist/title query, perform one `get`, then return `Ok(None)` when the
payload lacks a `"value"` key and the deserialized `Lyrics` otherwise.
The second component counts the Transport Client calls performed. -/
def get_lyrics (s : Sunk) (artist : Option String)
    (title : Option String) : Except Err (Option Lyrics) × Nat :=
  let args := (Query.new.maybe_arg "artist" artist).maybe_arg "title" title
  match s.get "getLyrics" args with
  | .error e => (.error e, 1)
  | .ok res =>
    (if (res.get? "value").isSome then
       match deserializeLyrics res with
       | .ok l => .ok (some l)
       | .error e => .error e
     else .ok none, 1)

/-- Entries of a built query under a given key, in order. -/
def entriesFor (q : List (String × String)) (k : String) :
    List (String × String) :=
  q.filter (fun p => p.1 = k)

/-- serde derive semantics for a required `Vec<_>` field (no default):
the key must be present and hold a JSON array, whose raw elements are
returned. -/
def reqArr (j : Json) (k : String) : Except Err (List Json) :=
  match j.get? k with
  | some (.arr xs) => .ok xs
  | some _ => .error (.typeMismatch k)
  | none => .error (.missingField k)

/-- `SimilarArtistSerde` (artist.rs lines 41-45): the raw wire shape of
one similar-artist entry, with a string-typed `id`. -/
structure SimilarArtistSerde where
  id : String
  name : String
deriving Repr, DecidableEq

/-- `ArtistInfoSerde` (artist.rs lines 29-39): the raw wire shape
consumed by `Artist::info`. -/
structure ArtistInfoSerde where
  biography : String
  musicBrainzId : String
  lastFmUrl : String
  smallImageUrl : String
  mediumImageUrl : String
  largeImageUrl : String
  similarArtist : List SimilarArtistSerde
deriving Repr, DecidableEq

/-- `ArtistInfo` (artist.rs lines 20-27). -/
structure ArtistInfo where
  biography : String
  musicbrainz_id : String
  lastfm_url : String
  image_urls : String × String × String
  similar_artists : List (Nat × String)
deriving Repr, DecidableEq

/-- `derive(Deserialize)` for `SimilarArtistSerde`: two required string
fields under their own names. -/
def deserializeSimilarArtist (j : Json) : Except Err SimilarArtistSerde := do
  let id ← reqStr j "id"
  let name ← reqStr j "name"
  return { id := id, name := name }

/-- `derive(Deserialize)` for `ArtistInfoSerde`: seven required fields,
the `similarArtist` array deserialized recursively. -/
def deserializeArtistInfoSerde (j : Json) : Except Err ArtistInfoSerde := do
  let biography ← reqStr j "biography"
  let musicBrainzId ← reqStr j "musicBrainzId"
  let lastFmUrl ← reqStr j "lastFmUrl"
  let smallImageUrl ← reqStr j "smallImageUrl"
  let mediumImageUrl ← reqStr j "mediumImageUrl"
  let largeImageUrl ← reqStr j "largeImageUrl"
  let simJs ← reqArr j "similarArtist"
  let similarArtist ← simJs.mapM deserializeSimilarArtist
  return { biography := biography, musicBrainzId := musicBrainzId,
           lastFmUrl := lastFmUrl, smallImageUrl := smallImageUrl,
           mediumImageUrl := mediumImageUrl,
           largeImageUrl := largeImageUrl, similarArtist := similarArtist }

/-- The `ArtistInfo` construction of `Artist::info` (artist.rs lines
69-83): each similar artist's string id goes through
`a.id.parse().unwrap()` (line 81), which panics on a non-numeric value
(modelled as the `none` of the `Option`-valued `mapM`). -/
def artistInfoFromSerde (serde : ArtistInfoSerde) : Outcome ArtistInfo :=
  match serde.similarArtist.mapM
      (fun a => (parseU64 a.id).map (fun n => (n, a.name))) with
  | some sims =>
      .ok { biography := serde.biography,
            musicbrainz_id := serde.musicBrainzId,
            lastfm_url := serde.lastFmUrl,
            image_urls := (serde.smallImageUrl, serde.mediumImageUrl,
                           serde.largeImageUrl),
            similar_artists := sims }
  | none => .panicked

/-- `Artist::info` (artist.rs lines 56-84): builds the `getArtistInfo`
query with optional `count` / `includeNotPresent`, performs one `get`,
deserializes `ArtistInfoSerde` and converts it.  The second component
counts the Transport Client calls performed. -/
def Artist.info (a : Artist) (s : Sunk) (count : Option Nat)
    (include_not_present : Option Bool) : Outcome ArtistInfo × Nat :=
  let args := ((Query.with_ "id" (toString a.id)).maybe_arg "count"
      (map_str count)).maybe_arg "includeNotPresent"
      (map_str include_not_present)
  match s.get "getArtistInfo" args with
  | .error e => (.err e, 1)
  | .ok res =>
    match deserializeArtistInfoSerde res with
    | .error e => (.err e, 1)
    | .ok serde => (artistInfoFromSerde serde, 1)

/-- The lowercase spelling of each `AudioFormat` variant's name, as the
spec states the wire serialization ("serializes to its lowercase
name"). -/
def audioFormatSpecName : AudioFormat → String
  | .Aac => "aac"
  | .Aif => "aif"
  | .Aiff => "aiff"
  | .Ape => "ape"
  | .Flac => "flac"
  | .Flv => "flv"
  | .M4a => "m4a"
  | .Mp3 => "mp3"
  | .Mpc => "mpc"
  | .Oga => "oga"
  | .Ogg => "ogg"
  | .Ogx => "ogx"
  | .Opus => "opus"
  | .Shn => "shn"
  | .Wav => "wav"
  | .Wma => "wma"
  | .Raw => "raw"

/-- C7: every `AudioFormat` variant's wire serialization (`Display`
output) equals the lowercase spelling of the variant's name, e.g.
`Flac` serializes to `"flac"` and `M4a` to `"m4a"`. -/
theorem audioFormat_display_is_lowercase_name (f : AudioFormat) :
    f.display = audioFormatSpecName f := by
  cases f <;> decide

/-- C5: for a song with id 27, `stream_url` with no bitrate and no
format builds a query for the `"stream"` operation that contains the
pair `("id", "27")` and no `"maxBitRate"` or `"format"` entry. -/
theorem stream_url_id27_no_optionals (song : Song) (h : song.id = 27) :
    (song.stream_url none none).1 = "stream" ∧
    ("id", "27") ∈ (song.stream_url none none).2 ∧
    entriesFor (song.stream_url none none).2 "maxBitRate" = [] ∧
    entriesFor (song.stream_url none none).2 "format" = [] := by
  have hs : toString song.id = "27" := by rw [h]; rfl
  simp [Song.stream_url, Query.new, Query.arg, Query.maybe_arg, map_str,
        Query.build, entriesFor, hs]

/-- C5 witness: the concrete `Song` parsed from the `parse_song` test
payload has id 27, and its parameterless `stream_url` query is exactly
`[("id", "27")]` on the `"stream"` operation. -/
theorem stream_url_id27_no_optionals_witness :
    let song : Song :=
      { id := 27, title := "Bellevue Avenue", album := some "Bellevue",
        album_id := some 1, artist := some "Misteur Valaire",
        artist_id := some 1, track := some 1, year := none,
        genre := some "(255)", cover_id := some 25, size := 5400185,
        duration := 198, path := "Misteur Valaire/Bellevue/01.mp3",
        media_type := "music" }
    (song.stream_url none none).1 = "stream" ∧
    ("id", "27") ∈ (song.stream_url none none).2 ∧
    entriesFor (song.stream_url none none).2 "maxBitRate" = [] ∧
    entriesFor (song.stream_url none none).2 "format" = [] :=
  stream_url_id27_no_optionals _ rfl

/-- C6: appending `maybe_arg k (map_str none)` leaves the query
unchanged, so a query that had no entry for `k` still has none; while
`maybe_arg k (map_str (some a))` appends exactly one entry for `k`,
holding the uniform string conversion of `a`. -/
theorem maybe_arg_omission {α : Type} [ToString α] (q : Query)
    (k : String) (hk : entriesFor q.build k = []) :
    (q.maybe_arg k (map_str (none : Option α))).build = q.build ∧
    entriesFor ((q.maybe_arg k (map_str (none : Option α))).build) k = [] ∧
    ∀ a : α, entriesFor ((q.maybe_arg k (map_str (some a))).build) k
      = [(k, toString a)] := by
  refine ⟨rfl, hk, fun a => ?_⟩
  have hb : ((q.maybe_arg k (map_str (some a))).build)
      = q.build ++ [(k, toString a)] := rfl
  rw [hb]
  unfold entriesFor at *
  rw [List.filter_append, hk]
  simp

/-- C6 witness: starting from the empty builder (no `"bitrate"` entry),
`maybe_arg` with `None` yields a query without the key and `maybe_arg`
with `Some 320` yields exactly one `("bitrate", "320")` entry. -/
theorem maybe_arg_omission_witness :
    entriesFor Query.new.build "bitrate" = [] ∧
    (Query.new.maybe_arg "bitrate" (map_str (none : Option Nat))).build
      = Query.new.build ∧
    entriesFor ((Query.new.maybe_arg "bitrate"
        (map_str (some (320 : Nat)))).build) "bitrate"
      = [("bitrate", "320")] :=
  ⟨rfl, (maybe_arg_omission Query.new "bitrate" rfl).1,
   (maybe_arg_omission Query.new "bitrate" rfl).2.2 320⟩

/-- C10: the query built by `get_random_songs` always contains exactly
one `"size"` entry: the decimal string of the given size when present,
and `"10"` when absent; it is never omitted. -/
theorem get_random_songs_size_entry (size : Option Nat)
    (genre : Option String) (from_year to_year folder_id : Option Nat) :
    entriesFor (get_random_songs_args size genre from_year to_year
        folder_id) "size"
      = [("size", toString (size.getD 10))] := by
  cases size <;> cases genre <;> cases from_year <;> cases to_year <;>
    cases folder_id <;> rfl

/-- C2: `Artist::albums` returns the embedded list with no Transport
Client call when its length equals `album_count`; otherwise it performs
exactly one call (the `getArtist` re-fetch) and, when that fetch
succeeds, returns the freshly fetched artist's album list. -/
theorem artist_albums_lazy_refetch (a : Artist)
    (dA : Json → Except Err Album) (s : Sunk) :
    (a.albums.length = a.album_count →
       a.albumsVia dA s = (.ok a.albums, 0)) ∧
    (a.albums.length ≠ a.album_count →
       (a.albumsVia dA s).2 = 1 ∧
       ∀ art : Artist, (get_artist dA s a.id).1 = .ok art →
         a.albumsVia dA s = (.ok art.albums, 1)) := by
  constructor
  · intro hEq
    simp [Artist.albumsVia, hEq]
  · intro hNe
    have hcalls : (get_artist dA s a.id).2 = 1 := by
      unfold get_artist
      cases s.get "getArtist" (Query.with_ "id" (toString a.id)) <;> rfl
    constructor
    · simp only [Artist.albumsVia, if_pos hNe]
      rcases hga : get_artist dA s a.id with ⟨out, n⟩
      have hn : n = 1 := by rw [hga] at hcalls; exact hcalls
      cases out <;> simp [hn]
    · intro art hart
      simp only [Artist.albumsVia, if_pos hNe]
      rcases hga : get_artist dA s a.id with ⟨out, n⟩
      have hn : n = 1 := by rw [hga] at hcalls; exact hcalls
      rw [hga] at hart
      simp only at hart
      subst hart
      simp [hn]

/-- C2 witness: a synced artist (one embedded album, `album_count = 1`)
returns its embedded list with zero calls, and a stale artist (empty
embedded list, `album_count = 1`) re-fetches through a transport whose
`getArtist` payload parses, performing exactly one call and returning
the fetched list. -/
theorem artist_albums_lazy_refetch_witness :
    let bellevue : Album := { id := 1, name := "Bellevue", song_count := 9 }
    let synced : Artist :=
      { id := 1, name := "Misteur Valaire", cover_id := some "ar-1",
        albums := [bellevue], album_count := 1 }
    let stale : Artist :=
      { id := 1, name := "Misteur Valaire", cover_id := some "ar-1",
        albums := [], album_count := 1 }
    let srv : Sunk :=
      ⟨fun _ _ => .ok (Json.obj
          [("id", .str "1"), ("name", .str "Misteur Valaire"),
           ("albumCount", .num 1),
           ("album", .arr [Json.obj [("id", .str "1"),
                                     ("name", .str "Bellevue"),
                                     ("songCount", .num 9)]])])⟩
    synced.albumsVia deserializeAlbum srv = (.ok [bellevue], 0) ∧
    stale.albumsVia deserializeAlbum srv = (.ok [bellevue], 1) := by
  intro bellevue synced stale srv
  refine ⟨(artist_albums_lazy_refetch synced deserializeAlbum srv).1 rfl, ?_⟩
  exact ((artist_albums_lazy_refetch stale deserializeAlbum srv).2
    (by decide)).2
    { id := 1, name := "Misteur Valaire", cover_id := none,
      albums := [bellevue], album_count := 1 } (by decide)

/-- C9: after a successful `getLyrics` transport call, `get_lyrics`
returns `Ok(None)` exactly when the payload lacks a `"value"` key, and
`Ok(Some(lyrics))` when the key is present and the payload deserializes
as `Lyrics`; a missing-lyrics response is never an error. -/
theorem get_lyrics_missing_value_is_ok_none (s : Sunk)
    (artist title : Option String) (res : Json)
    (h : s.get "getLyrics"
        ((Query.new.maybe_arg "artist" artist).maybe_arg "title" title)
      = .ok res) :
    ((get_lyrics s artist title).1 = .ok none ↔ res.get? "value" = none) ∧
    (∀ l : Lyrics, (res.get? "value").isSome →
       deserializeLyrics res = .ok l →
       (get_lyrics s artist title).1 = .ok (some l)) := by
  constructor
  · simp only [get_lyrics, h]
    rcases hv : res.get? "value" with _ | v
    · simp [hv]
    · simp only [hv, Option.isSome_some, if_true]
      cases hd : deserializeLyrics res <;> simp
  · intro l hv hd
    simp [get_lyrics, h, hv, hd]

/-- C9 witness: a transport whose `getLyrics` payload is an empty
object (no `"value"` key) makes `get_lyrics` return `Ok(None)`, and one
whose payload is a full `Lyrics` object makes it return the
deserialized `Ok(Some(lyrics))`. -/
theorem get_lyrics_missing_value_is_ok_none_witness :
    let empty : Sunk := ⟨fun _ _ => .ok (Json.obj [])⟩
    let full : Sunk := ⟨fun _ _ => .ok (Json.obj
        [("title", .str "T"), ("artist", .str "A"),
         ("value", .str "la la la")])⟩
    (get_lyrics empty none none).1 = .ok none ∧
    (get_lyrics full (some "A") (some "T")).1
      = .ok (some { title := "T", artist := "A", value := "la la la" }) := by
  intro empty full
  constructor
  · exact (get_lyrics_missing_value_is_ok_none empty none none
      (Json.obj []) rfl).1.mpr rfl
  · exact (get_lyrics_missing_value_is_ok_none full (some "A") (some "T")
      (Json.obj [("title", .str "T"), ("artist", .str "A"),
                 ("value", .str "la la la")]) rfl).2
      { title := "T", artist := "A", value := "la la la" }
      (by decide) rfl

/-- C3: two-stage deserialization of the documented Artist payload
`{"id":"1","name":"X","albumCount":1,"album":[...]}` succeeds whenever
the embedded album array deserializes recursively, and yields an Artist
with `id = 1` (parsed from the string), `name = "X"`,
`album_count = 1`, and exactly the recursively deserialized albums. -/
theorem artist_two_stage_example (dA : Json → Except Err Album)
    (albumJs : List Json) (albums : List Album)
    (h : albumJs.mapM dA = .ok albums) :
    deserializeArtist dA
      (Json.obj [("id", .str "1"), ("name", .str "X"),
                 ("albumCount", .num 1), ("album", .arr albumJs)])
    = .ok { id := 1, name := "X", cover_id := none, albums := albums,
            album_count := 1 } := by
  have hraw : deserializeRawArtist dA
      (Json.obj [("id", .str "1"), ("name", .str "X"),
                 ("albumCount", .num 1), ("album", .arr albumJs)])
    = Except.bind (albumJs.mapM dA) (fun album =>
        Except.ok { id := "1", name := "X", cover_art := none,
                    album_count := 1, album := album }) := rfl
  unfold deserializeArtist
  rw [hraw, h]
  rfl

/-- C3 witness: the documented payload with the Bellevue album embedded
(cf. the `parse_artist` test) deserializes to the expected Artist. -/
theorem artist_two_stage_example_witness :
    [Json.obj [("id", .str "1"), ("name", .str "Bellevue"),
               ("songCount", .num 9)]].mapM deserializeAlbum
      = .ok [{ id := 1, name := "Bellevue", song_count := 9 }] ∧
    deserializeArtist deserializeAlbum
      (Json.obj [("id", .str "1"), ("name", .str "X"),
                 ("albumCount", .num 1),
                 ("album", .arr [Json.obj [("id", .str "1"),
                                           ("name", .str "Bellevue"),
                                           ("songCount", .num 9)]])])
    = .ok { id := 1, name := "X", cover_id := none,
            albums := [{ id := 1, name := "Bellevue", song_count := 9 }],
            album_count := 1 } :=
  ⟨rfl, artist_two_stage_example deserializeAlbum
    [Json.obj [("id", .str "1"), ("name", .str "Bellevue"),
               ("songCount", .num 9)]]
    [{ id := 1, name := "Bellevue", song_count := 9 }] rfl⟩

/-- C4: an Artist payload that omits the `"album"` key entirely (but is
otherwise valid) still deserializes successfully, and the resulting
embedded album list is the explicitly declared default `[]`. -/
theorem artist_absent_album_defaults_empty (dA : Json → Except Err Album)
    (j : Json) (idStr name : String) (n cnt : Nat) (cov : Option String)
    (habsent : j.get? "album" = none)
    (hid : j.get? "id" = some (.str idStr))
    (hn : parseU64 idStr = some n)
    (hname : j.get? "name" = some (.str name))
    (hcov : optStr j "coverArt" = .ok cov)
    (hcnt : j.get? "albumCount" = some (.num cnt))
    (hlt : cnt < 2 ^ 64) :
    deserializeArtist dA j
    = .ok { id := n, name := name, cover_id := cov, albums := [],
            album_count := cnt } := by
  have hid' : reqStr j "id" = .ok idStr := by
    unfold reqStr; rw [hid]
  have hname' : reqStr j "name" = .ok name := by
    unfold reqStr; rw [hname]
  have hcnt' : reqNat j "albumCount" = .ok cnt := by
    unfold reqNat; rw [hcnt]; exact if_pos hlt
  have halb : defaultArr j "album" = .ok [] := by
    unfold defaultArr; rw [habsent]
  have hraw : deserializeRawArtist dA j
      = .ok { id := idStr, name := name, cover_art := cov,
              album_count := cnt, album := [] } := by
    unfold deserializeRawArtist
    rw [hid', hname', hcov, hcnt', halb]
    rfl
  unfold deserializeArtist
  rw [hraw]
  show artistFromRaw { id := idStr, name := name, cover_art := cov,
                       album_count := cnt, album := [] } = _
  unfold artistFromRaw
  rw [hn]

/-- C4 witness: the payload `{"id":"1","name":"X","albumCount":1}` with
no `"album"` key deserializes to an Artist with an empty album list. -/
theorem artist_absent_album_defaults_empty_witness :
    deserializeArtist deserializeAlbum
      (Json.obj [("id", .str "1"), ("name", .str "X"),
                 ("albumCount", .num 1)])
    = .ok { id := 1, name := "X", cover_id := none, albums := [],
            album_count := 1 } :=
  artist_absent_album_defaults_empty deserializeAlbum
    (Json.obj [("id", .str "1"), ("name", .str "X"),
               ("albumCount", .num 1)])
    "1" "X" 1 1 none rfl rfl rfl rfl rfl rfl (by norm_num)

/-- C1 counterexample: the Artist payload
`{"id":"one","name":"X","albumCount":0}` has a non-numeric id, and its
deserialization panics (`raw.id.parse().unwrap()`); it does not fail
with the typed `InvalidIdError` result the claim asserts. -/
theorem nonnumeric_id_panics_counterexample :
    deserializeArtist deserializeAlbum
      (Json.obj [("id", .str "one"), ("name", .str "X"),
                 ("albumCount", .num 0)])
      = .panicked ∧
    deserializeArtist deserializeAlbum
      (Json.obj [("id", .str "one"), ("name", .str "X"),
                 ("albumCount", .num 0)])
      ≠ .err .invalidIdError := by
  constructor
  · rfl
  · intro hcontra
    exact absurd (rfl.symm.trans hcontra) (by decide)

/-- If one list element maps to `none`, the whole `Option`-monadic
`mapM` is `none`. -/
theorem mapM_option_none_of_mem {α β : Type} (f : α → Option β)
    {l : List α} {x : α} (hx : x ∈ l) (hf : f x = none) :
    l.mapM f = none := by
  induction l with
  | nil => cases hx
  | cons a as ih =>
    rw [List.mapM_cons]
    rcases List.mem_cons.mp hx with rfl | hmem
    · rw [hf]; rfl
    · cases hfa : f a
      · rfl
      · rw [ih hmem]; rfl

/-- C1 amended: whenever the raw wire stage succeeds but a
numeric-identifier field holds a non-numeric string — an Artist's `id`,
a Song's `id`, `albumId`, `artistId` or `coverArt` id, or a
similar-artist `id` in a `getArtistInfo` response — the conversion
never substitutes a default value: it panics (aborts) via `unwrap` on
the failed parse, rather than returning a typed `InvalidIdError`. -/
theorem nonnumeric_id_panics :
    (∀ (dA : Json → Except Err Album) (j : Json) (rawA : RawArtist),
       deserializeRawArtist dA j = .ok rawA → parseU64 rawA.id = none →
       deserializeArtist dA j = .panicked) ∧
    (∀ (j : Json) (rawS : RawSong),
       deserializeRawSong j = .ok rawS →
       parseU64 rawS.id = none ∨ parseOptId rawS.album_id = none ∨
         parseOptId rawS.artist_id = none ∨
         parseOptId rawS.cover_art = none →
       deserializeSong j = .panicked) ∧
    (∀ (a : Artist) (s : Sunk) (count : Option Nat)
       (include_not_present : Option Bool) (res : Json)
       (serde : ArtistInfoSerde) (sa : SimilarArtistSerde),
       s.get "getArtistInfo"
           (((Query.with_ "id" (toString a.id)).maybe_arg "count"
               (map_str count)).maybe_arg "includeNotPresent"
               (map_str include_not_present))
         = .ok res →
       deserializeArtistInfoSerde res = .ok serde →
       sa ∈ serde.similarArtist → parseU64 sa.id = none →
       (a.info s count include_not_present).1 = .panicked) := by
  refine ⟨?_, ?_, ?_⟩
  · intro dA j rawA hA hAid
    unfold deserializeArtist
    rw [hA]
    show artistFromRaw rawA = _
    unfold artistFromRaw
    rw [hAid]
  · intro j rawS hS hbad
    unfold deserializeSong
    rw [hS]
    show songFromRaw rawS = _
    unfold songFromRaw
    rcases hbad with h | h | h | h
    · rw [h]
    · cases hp : parseU64 rawS.id with
      | none => rfl
      | some n => rw [h]
    · cases hp : parseU64 rawS.id with
      | none => rfl
      | some n =>
        cases ha : parseOptId rawS.album_id with
        | none => rfl
        | some v => rw [h]
    · cases hp : parseU64 rawS.id with
      | none => rfl
      | some n =>
        cases ha : parseOptId rawS.album_id with
        | none => rfl
        | some v =>
          cases hr : parseOptId rawS.artist_id with
          | none => rfl
          | some w => rw [h]
  · intro a s count inp res serde sa hres hserde hmem hid
    have hm : serde.similarArtist.mapM
        (fun x => (parseU64 x.id).map (fun n => (n, x.name))) = none :=
      mapM_option_none_of_mem _ hmem (by rw [hid]; rfl)
    simp only [Artist.info, hres, hserde]
    show artistInfoFromSerde serde = _
    unfold artistInfoFromSerde
    rw [hm]

/-- C1 witness: concrete payloads exercising each panic site — an
Artist payload with id `"one"`, a Song payload with id `"x27"`, a Song
payload with numeric id `"27"` but albumId `"one"`, and a
`getArtistInfo` response whose similar artist has id `"one"`; every
raw stage succeeds and every conversion panics. -/
theorem nonnumeric_id_panics_witness :
    deserializeArtist deserializeAlbum
      (Json.obj [("id", .str "one"), ("name", .str "X"),
                 ("albumCount", .num 0)])
      = .panicked ∧
    deserializeSong
      (Json.obj [("id", .str "x27"), ("parent", .str "25"),
                 ("isDir", .bool false), ("title", .str "T"),
                 ("size", .num 1), ("contentType", .str "audio/mpeg"),
                 ("suffix", .str "mp3"), ("duration", .num 1),
                 ("bitRate", .num 1), ("path", .str "p"),
                 ("playCount", .num 1), ("created", .str "c"),
                 ("type", .str "music")])
      = .panicked ∧
    deserializeSong
      (Json.obj [("id", .str "27"), ("parent", .str "25"),
                 ("isDir", .bool false), ("title", .str "T"),
                 ("albumId", .str "one"),
                 ("size", .num 1), ("contentType", .str "audio/mpeg"),
                 ("suffix", .str "mp3"), ("duration", .num 1),
                 ("bitRate", .num 1), ("path", .str "p"),
                 ("playCount", .num 1), ("created", .str "c"),
                 ("type", .str "music")])
      = .panicked ∧
    (Artist.info
      { id := 1, name := "A", cover_id := none, albums := [],
        album_count := 0 }
      ⟨fun _ _ => .ok (Json.obj
          [("biography", .str "b"), ("musicBrainzId", .str "m"),
           ("lastFmUrl", .str "u"), ("smallImageUrl", .str "s"),
           ("mediumImageUrl", .str "i"), ("largeImageUrl", .str "l"),
           ("similarArtist", .arr [Json.obj [("id", .str "one"),
                                             ("name", .str "X")]])])⟩
      none none).1 = .panicked := by
  refine ⟨?_, ?_, ?_, ?_⟩
  · exact nonnumeric_id_panics.1 deserializeAlbum
      (Json.obj [("id", .str "one"), ("name", .str "X"),
                 ("albumCount", .num 0)])
      { id := "one", name := "X", cover_art := none, album_count := 0,
        album := [] }
      rfl (by decide)
  · exact nonnumeric_id_panics.2.1
      (Json.obj [("id", .str "x27"), ("parent", .str "25"),
                 ("isDir", .bool false), ("title", .str "T"),
                 ("size", .num 1), ("contentType", .str "audio/mpeg"),
                 ("suffix", .str "mp3"), ("duration", .num 1),
                 ("bitRate", .num 1), ("path", .str "p"),
                 ("playCount", .num 1), ("created", .str "c"),
                 ("type", .str "music")])
      { id := "x27", parent := "25", is_dir := false, title := "T",
        album := none, artist := none, track := none, year := none,
        genre := none, cover_art := none, size := 1,
        content_type := "audio/mpeg", suffix := "mp3", duration := 1,
        bit_rate := 1, path := "p", is_video := none, play_count := 1,
        disc_number := none, created := "c", album_id := none,
        artist_id := none, media_type := "music" }
      rfl (Or.inl (by decide))
  · exact nonnumeric_id_panics.2.1
      (Json.obj [("id", .str "27"), ("parent", .str "25"),
                 ("isDir", .bool false), ("title", .str "T"),
                 ("albumId", .str "one"),
                 ("size", .num 1), ("contentType", .str "audio/mpeg"),
                 ("suffix", .str "mp3"), ("duration", .num 1),
                 ("bitRate", .num 1), ("path", .str "p"),
                 ("playCount", .num 1), ("created", .str "c"),
                 ("type", .str "music")])
      { id := "27", parent := "25", is_dir := false, title := "T",
        album := none, artist := none, track := none, year := none,
        genre := none, cover_art := none, size := 1,
        content_type := "audio/mpeg", suffix := "mp3", duration := 1,
        bit_rate := 1, path := "p", is_video := none, play_count := 1,
        disc_number := none, created := "c", album_id := some "one",
        artist_id := none, media_type := "music" }
      rfl (Or.inr (Or.inl (by decide)))
  · exact nonnumeric_id_panics.2.2
      { id := 1, name := "A", cover_id := none, albums := [],
        album_count := 0 }
      ⟨fun _ _ => .ok (Json.obj
          [("biography", .str "b"), ("musicBrainzId", .str "m"),
           ("lastFmUrl", .str "u"), ("smallImageUrl", .str "s"),
           ("mediumImageUrl", .str "i"), ("largeImageUrl", .str "l"),
           ("similarArtist", .arr [Json.obj [("id", .str "one"),
                                             ("name", .str "X")]])])⟩
      none none
      (Json.obj
          [("biography", .str "b"), ("musicBrainzId", .str "m"),
           ("lastFmUrl", .str "u"), ("smallImageUrl", .str "s"),
           ("mediumImageUrl", .str "i"), ("largeImageUrl", .str "l"),
           ("similarArtist", .arr [Json.obj [("id", .str "one"),
                                             ("name", .str "X")]])])
      { biography := "b", musicBrainzId := "m", lastFmUrl := "u",
        smallImageUrl := "s", mediumImageUrl := "i",
        largeImageUrl := "l",
        similarArtist := [{ id := "one", name := "X" }] }
      { id := "one", name := "X" }
      rfl rfl (by decide) (by decide)

/-- Destructing a successful `Except` bind: both stages succeeded. -/
theorem except_bind_ok {ε α β : Type} {x : Except ε α} {f : α → Except ε β}
    {b : β} (h : (x >>= f) = .ok b) : ∃ a, x = .ok a ∧ f a = .ok b := by
  cases x with
  | error e => simp [Bind.bind, Except.bind] at h
  | ok a => exact ⟨a, rfl, by simpa [Bind.bind, Except.bind] using h⟩

/-- A successful required-string extraction means the key was present. -/
theorem reqStr_ok_isSome {j : Json} {k : String} {s : String}
    (h : reqStr j k = .ok s) : (j.get? k).isSome = true := by
  revert h
  unfold reqStr
  cases j.get? k with
  | none => simp
  | some v => cases v <;> simp

/-- A successful required-bool extraction means the key was present. -/
theorem reqBool_ok_isSome {j : Json} {k : String} {b : Bool}
    (h : reqBool j k = .ok b) : (j.get? k).isSome = true := by
  revert h
  unfold reqBool
  cases j.get? k with
  | none => simp
  | some v => cases v <;> simp

/-- A successful required-number extraction means the key was present. -/
theorem reqNat_ok_isSome {j : Json} {k : String} {n : Nat}
    (h : reqNat j k = .ok n) : (j.get? k).isSome = true := by
  revert h
  unfold reqNat
  cases j.get? k with
  | none => simp
  | some v => cases v <;> simp [ite_eq_iff]

/-- If the raw `_Song` stage succeeds, every required raw-shape key was
present in the payload, in particular the eight keys whose values never
reach the `Song` struct. -/
theorem rawSong_ok_required_keys {j : Json} {raw : RawSong}
    (h : deserializeRawSong j = .ok raw) :
    (j.get? "parent").isSome = true ∧ (j.get? "isDir").isSome = true ∧
    (j.get? "contentType").isSome = true ∧
    (j.get? "suffix").isSome = true ∧ (j.get? "bitRate").isSome = true ∧
    (j.get? "playCount").isSome = true ∧
    (j.get? "created").isSome = true ∧ (j.get? "path").isSome = true := by
  unfold deserializeRawSong at h
  obtain ⟨xid, hid, h⟩ := except_bind_ok h
  obtain ⟨xparent, hparent, h⟩ := except_bind_ok h
  obtain ⟨xisdir, hisdir, h⟩ := except_bind_ok h
  obtain ⟨xtitle, htitle, h⟩ := except_bind_ok h
  obtain ⟨xalbum, halbum, h⟩ := except_bind_ok h
  obtain ⟨xartist, hartist, h⟩ := except_bind_ok h
  obtain ⟨xtrack, htrack, h⟩ := except_bind_ok h
  obtain ⟨xyear, hyear, h⟩ := except_bind_ok h
  obtain ⟨xgenre, hgenre, h⟩ := except_bind_ok h
  obtain ⟨xcover, hcover, h⟩ := except_bind_ok h
  obtain ⟨xsize, hsize, h⟩ := except_bind_ok h
  obtain ⟨xct, hct, h⟩ := except_bind_ok h
  obtain ⟨xsuf, hsuf, h⟩ := except_bind_ok h
  obtain ⟨xdur, hdur, h⟩ := except_bind_ok h
  obtain ⟨xbr, hbr, h⟩ := except_bind_ok h
  obtain ⟨xpath, hpath, h⟩ := except_bind_ok h
  obtain ⟨xiv, hiv, h⟩ := except_bind_ok h
  obtain ⟨xpc, hpc, h⟩ := except_bind_ok h
  obtain ⟨xdn, hdn, h⟩ := except_bind_ok h
  obtain ⟨xcr, hcr, h⟩ := except_bind_ok h
  obtain ⟨xaid, haid, h⟩ := except_bind_ok h
  obtain ⟨xrid, hrid, h⟩ := except_bind_ok h
  obtain ⟨xmt, hmt, h⟩ := except_bind_ok h
  exact ⟨reqStr_ok_isSome hparent, reqBool_ok_isSome hisdir,
         reqStr_ok_isSome hct, reqStr_ok_isSome hsuf,
         reqNat_ok_isSome hbr, reqNat_ok_isSome hpc,
         reqStr_ok_isSome hcr, reqStr_ok_isSome hpath⟩

/-- C8 counterexample: the claim's clause that none of the listed raw
values appears in the resulting `Song` struct is false for `path`: in
the `parse_song` test payload the wire `"path"` value is carried into
the parsed Song's `path` field. -/
theorem song_unused_fields_counterexample :
    rawSongJson.get? "path"
      = some (.str "Misteur Valaire/Bellevue/01.mp3") ∧
    deserializeSong rawSongJson
      = .ok { id := 27, title := "Bellevue Avenue",
              album := some "Bellevue", album_id := some 1,
              artist := some "Misteur Valaire", artist_id := some 1,
              track := some 1, year := none, genre := some "(255)",
              cover_id := some 25, size := 5400185, duration := 198,
              path := "Misteur Valaire/Bellevue/01.mp3",
              media_type := "music" } := by
  exact ⟨rfl, by decide⟩

/-- C8 amended: a Song payload missing any one of the raw-shape fields
`parent`, `isDir`, `contentType`, `suffix`, `bitRate`, `playCount`,
`created`, `path` fails to deserialize with a typed error and no
implicit default is applied — even though, of these, only `path`
appears in the resulting `Song` struct (stage two copies `raw.path`
into `Song.path`; the other seven values are dropped). -/
theorem song_unused_fields_required (j : Json) (k : String)
    (hk : k ∈ ["parent", "isDir", "contentType", "suffix", "bitRate",
               "playCount", "created", "path"])
    (hnone : j.get? k = none) :
    (deserializeSong j).isErr = true ∧
    ∀ (j' : Json) (raw : RawSong) (song : Song),
      deserializeRawSong j' = .ok raw → deserializeSong j' = .ok song →
      song.path = raw.path := by
  constructor
  · unfold deserializeSong
    cases hraw : deserializeRawSong j with
    | error e => rfl
    | ok raw =>
      exfalso
      have hkeys := rawSong_ok_required_keys hraw
      fin_cases hk <;> simp_all
  · intro j' raw song hraw hok
    unfold deserializeSong at hok
    rw [hraw] at hok
    have hok' : songFromRaw raw = .ok song := hok
    unfold songFromRaw at hok'
    split at hok'
    · cases hok'
      rfl
    · exact Outcome.noConfusion hok'

/-- C8 witness: the `parse_song` test payload with its `"parent"` key
removed fails to deserialize, while the full payload's parsed Song
carries the wire `path` value. -/
theorem song_unused_fields_required_witness :
    "parent" ∈ ["parent", "isDir", "contentType", "suffix", "bitRate",
                "playCount", "created", "path"] ∧
    (Json.obj [("id", .str "27"), ("isDir", .bool false),
               ("title", .str "Bellevue Avenue"),
               ("size", .num 5400185), ("contentType", .str "audio/mpeg"),
               ("suffix", .str "mp3"), ("duration", .num 198),
               ("bitRate", .num 216), ("path", .str "01.mp3"),
               ("playCount", .num 706), ("created", .str "2017"),
               ("type", .str "music")]).get? "parent" = none ∧
    (deserializeSong
      (Json.obj [("id", .str "27"), ("isDir", .bool false),
                 ("title", .str "Bellevue Avenue"),
                 ("size", .num 5400185), ("contentType", .str "audio/mpeg"),
                 ("suffix", .str "mp3"), ("duration", .num 198),
                 ("bitRate", .num 216), ("path", .str "01.mp3"),
                 ("playCount", .num 706), ("created", .str "2017"),
                 ("type", .str "music")])).isErr = true ∧
    ({ id := 27, title := "Bellevue Avenue", album := some "Bellevue",
       album_id := some 1, artist := some "Misteur Valaire",
       artist_id := some 1, track := some 1, year := none,
       genre := some "(255)", cover_id := some 25, size := 5400185,
       duration := 198, path := "Misteur Valaire/Bellevue/01.mp3",
       media_type := "music" } : Song).path
      = ({ id := "27", parent := "25", is_dir := false,
           title := "Bellevue Avenue", album := some "Bellevue",
           artist := some "Misteur Valaire", track := some 1,
           year := none, genre := some "(255)", cover_art := some "25",
           size := 5400185, content_type := "audio/mpeg",
           suffix := "mp3", duration := 198, bit_rate := 216,
           path := "Misteur Valaire/Bellevue/01.mp3", is_video := none,
           play_count := 706, disc_number := none, created := "2017-03-12T11:07:27.000Z",
           album_id := some "1", artist_id := some "1",
           media_type := "music" } : RawSong).path := by
  have h := song_unused_fields_required
    (Json.obj [("id", .str "27"), ("isDir", .bool false),
               ("title", .str "Bellevue Avenue"),
               ("size", .num 5400185), ("contentType", .str "audio/mpeg"),
               ("suffix", .str "mp3"), ("duration", .num 198),
               ("bitRate", .num 216), ("path", .str "01.mp3"),
               ("playCount", .num 706), ("created", .str "2017"),
               ("type", .str "music")])
    "parent" (by decide) rfl
  exact ⟨by decide, rfl, h.1,
    h.2 rawSongJson
      { id := "27", parent := "25", is_dir := false,
        title := "Bellevue Avenue", album := some "Bellevue",
        artist := some "Misteur Valaire", track := some 1,
        year := none, genre := some "(255)", cover_art := some "25",
        size := 5400185, content_type := "audio/mpeg",
        suffix := "mp3", duration := 198, bit_rate := 216,
        path := "Misteur Valaire/Bellevue/01.mp3", is_video := none,
        play_count := 706, disc_number := none, created := "2017-03-12T11:07:27.000Z",
        album_id := some "1", artist_id := some "1",
        media_type := "music" }
      { id := 27, title := "Bellevue Avenue", album := some "Bellevue",
        album_id := some 1, artist := some "Misteur Valaire",
        artist_id := some 1, track := some 1, year := none,
        genre := some "(255)", cover_id := some 25, size := 5400185,
        duration := 198, path := "Misteur Valaire/Bellevue/01.mp3",
        media_type := "music" }
      rfl (by decide)⟩
